import Mathlib

/-!
Shallow embedding of the AVL viewer orchestration code
(`avl_viewer.py`, `avl_viewer_commands.py`, `avl_window_control.py`)
and proofs about the claims on its behaviour.

Conventions:
* Python `int` is embedded as `Int`; Python floor division `//` is `Int.fdiv`.
* Python `float` values flowing through the result-capture path are embedded
  as exact rationals (`ℚ`); the decimal texts exercised here are exactly
  representable at the precision the claims mention.
* `None`-able values become `Option`, exceptions become explicit outcome
  constructors; code paths whose `try/except` handlers absorb an error are
  translated with the handler inlined, exactly as the handler behaves.
-/

namespace AVLConnector

/-! ### Rectangle planner (`avl_window_control.py`, `_compute_target_rectangles`) -/

/-- Embeds the frozen dataclass `WindowPlacement(left, top, width, height)`. -/
structure WindowPlacement where
  left : Int
  top : Int
  width : Int
  height : Int
  deriving DecidableEq, Repr

/-- Embeds `_compute_target_rectangles`: reads screen metrics `W, H`, puts the
geometry window on the top half of the right half of the screen and the
Trefftz window on the bottom half.  Python `//` is floor division (`Int.fdiv`). -/
def compute_target_rectangles (screen_width screen_height : Int) :
    WindowPlacement × WindowPlacement :=
  let right_half_left := Int.fdiv screen_width 2
  let right_half_width := screen_width - right_half_left
  let half_height := Int.fdiv screen_height 2
  ({ left := right_half_left, top := 0,
     width := right_half_width, height := half_height },
   { left := right_half_left, top := half_height,
     width := right_half_width, height := screen_height - half_height })

/-- Point membership in a placement rectangle, half-open on each axis. -/
def inRect (r : WindowPlacement) (x y : Int) : Prop :=
  r.left ≤ x ∧ x < r.left + r.width ∧ r.top ≤ y ∧ y < r.top + r.height

instance (r : WindowPlacement) (x y : Int) : Decidable (inRect r x y) := by
  unfold inRect; infer_instance

/-- Two placement rectangles are disjoint when no point lies in both. -/
def rectsDisjoint (a b : WindowPlacement) : Prop :=
  ∀ x y : Int, ¬ (inRect a x y ∧ inRect b x y)

/-- A rectangle has strictly positive area. -/
def positiveArea (r : WindowPlacement) : Prop := 0 < r.width ∧ 0 < r.height

instance (r : WindowPlacement) : Decidable (positiveArea r) := by
  unfold positiveArea; infer_instance

/-- A rectangle has zero area: one of its sides is degenerate. -/
def zeroArea (r : WindowPlacement) : Prop := r.width = 0 ∨ r.height = 0

/-- C4 counterexample: at screen size `W = 1, H = 1` (both strictly positive)
the geometry rectangle has height `1 // 2 = 0`, hence not strictly positive
area, refuting the claim that for all `W, H > 0` both rectangles have
positive area. -/
theorem c4_planner_counterexample :
    (0 : Int) < 1 ∧ (0 : Int) < 1 ∧
      ¬ positiveArea (compute_target_rectangles 1 1).1 := by
  decide

/-- C4 amended: for all screen widths `W > 0` and heights `H ≥ 2` the two
planner rectangles are disjoint and each has strictly positive area; and when
`W = 0` or `H = 0` at least one produced rectangle has zero area. -/
theorem c4_planner_rectangles (W H : Int) :
    (0 < W → 2 ≤ H →
      rectsDisjoint (compute_target_rectangles W H).1
          (compute_target_rectangles W H).2 ∧
        positiveArea (compute_target_rectangles W H).1 ∧
        positiveArea (compute_target_rectangles W H).2) ∧
    (W = 0 ∨ H = 0 →
      zeroArea (compute_target_rectangles W H).1 ∨
        zeroArea (compute_target_rectangles W H).2) := by
  have h2 : (0 : Int) ≤ 2 := by norm_num
  constructor
  · intro hW hH
    refine ⟨?_, ?_, ?_⟩
    · intro x y hxy
      simp only [compute_target_rectangles, inRect, Int.fdiv_eq_ediv _ h2] at hxy
      omega
    · simp only [compute_target_rectangles, positiveArea, Int.fdiv_eq_ediv _ h2]
      omega
    · simp only [compute_target_rectangles, positiveArea, Int.fdiv_eq_ediv _ h2]
      omega
  · intro hWH
    simp only [compute_target_rectangles, zeroArea, Int.fdiv_eq_ediv _ h2]
    omega

/-- C4 witness: instantiates the amended planner theorem at `W = 800`,
`H = 600` and at the degenerate width `W = 0`. -/
theorem c4_planner_rectangles_witness :
    (rectsDisjoint (compute_target_rectangles 800 600).1
        (compute_target_rectangles 800 600).2 ∧
      positiveArea (compute_target_rectangles 800 600).1 ∧
      positiveArea (compute_target_rectangles 800 600).2) ∧
    (zeroArea (compute_target_rectangles 0 600).1 ∨
      zeroArea (compute_target_rectangles 0 600).2) :=
  ⟨(c4_planner_rectangles 800 600).1 (by norm_num) (by norm_num),
   (c4_planner_rectangles 0 600).2 (Or.inl rfl)⟩

/-! ### Process lifecycle supervisor (`avl_viewer.py`, `main`, lines 239-426)

The supervisor's tail is modelled phase by phase.  Effects on the two child
processes are recorded as an event trace; `Except.error ()` on a wait models a
`KeyboardInterrupt` delivered while blocked there.  A `RuntimeError` raised in
the `try` body is absorbed by the broad `except Exception` handler, which makes
`main` return `1`; a `KeyboardInterrupt` is not an `Exception` and escapes. -/

/-- The two child AVL instances. -/
inductive Child where
  | geometry
  | trefftz
  deriving DecidableEq, Repr

/-- Observable process-control actions of the supervisor. -/
inductive Event where
  | launch (c : Child)
  | waitOn (c : Child)
  | terminate (c : Child)
  deriving DecidableEq, Repr

/-- The `RuntimeError`s the supervisor can raise, each naming the instance
concerned and, where applicable, its exit code. -/
inductive RunFailure where
  | geometryLaunchFailed
  | trefftzLaunchFailed
  | geometryCrashed (code : Int)
  | trefftzCrashed (code : Int)
  | geometryExitNonzero (code : Int)
  | trefftzExitNonzero (code : Int)
  deriving DecidableEq, Repr

/-- Terminal outcome of the supervisor's `try` body. -/
inductive TailOutcome where
  | ok
  | failed (f : RunFailure)
  | interrupted
  deriving DecidableEq, Repr

/-- Exit code of `main` for a given tail outcome: the handler maps any
absorbed failure to `1`, a clean fall-through returns `0`, and an interrupt
produces no return value (it propagates). -/
def tailExitCode : TailOutcome → Option Int
  | TailOutcome.ok => some 0
  | TailOutcome.failed _ => some 1
  | TailOutcome.interrupted => none

/-- Embeds lines 242-272: launch the geometry instance, then the Trefftz
instance; if the second launch raises, terminate the already-launched
geometry process inside the cleanup handler and re-raise as `RuntimeError`. -/
def launchPhase (geometryLaunchOk trefftzLaunchOk : Bool) :
    List Event × Except RunFailure Unit :=
  if geometryLaunchOk then
    if trefftzLaunchOk then
      ([Event.launch Child.geometry, Event.launch Child.trefftz], Except.ok ())
    else
      ([Event.launch Child.geometry, Event.terminate Child.geometry],
        Except.error RunFailure.trefftzLaunchFailed)
  else
    ([], Except.error RunFailure.geometryLaunchFailed)

/-- Embeds lines 356-371: after the settle delay, `poll()` both children
(`some code` = already exited with that code, `none` = still alive) and raise
a `RuntimeError` naming the crashed instance and its code. -/
def settlePhase (geometryPoll trefftzPoll : Option Int) : Except RunFailure Unit :=
  match geometryPoll with
  | some code => Except.error (RunFailure.geometryCrashed code)
  | none =>
    match trefftzPoll with
    | some code => Except.error (RunFailure.trefftzCrashed code)
    | none => Except.ok ()

/-- Environment of the wait phase: result of `geometry_process.wait()`
(`Except.error ()` models a `KeyboardInterrupt` delivered mid-wait), the
subsequent `trefftz_process.poll()`, and `trefftz_process.wait()`. -/
structure WaitEnv where
  geometryWait : Except Unit Int
  trefftzPollAfter : Option Int
  trefftzWait : Except Unit Int
  deriving Repr

/-- Embeds line 417-420: `if trefftz_return not in (0, None): raise`. -/
def trefftzFinalCheck (trefftzRet : Option Int) : TailOutcome :=
  match trefftzRet with
  | some code =>
      if code = 0 then TailOutcome.ok
      else TailOutcome.failed (RunFailure.trefftzExitNonzero code)
  | none => TailOutcome.ok

/-- Embeds lines 413-420: the final exit-code checks, geometry first:
`if geometry_return not in (0, None): raise`, then the Trefftz check. -/
def finalizeChecks (geometryRet trefftzRet : Option Int) : TailOutcome :=
  match geometryRet with
  | some code =>
      if code = 0 then trefftzFinalCheck trefftzRet
      else TailOutcome.failed (RunFailure.geometryExitNonzero code)
  | none => trefftzFinalCheck trefftzRet

/-- Embeds lines 380-420: wait for the geometry child (on interrupt,
terminate geometry then Trefftz and re-raise); then poll the Trefftz child
and wait for it if still running (on interrupt there, terminate Trefftz and
re-raise); finally run the exit-code checks. -/
def waitPhase (env : WaitEnv) : List Event × TailOutcome :=
  match env.geometryWait with
  | Except.error _ =>
      ([Event.waitOn Child.geometry, Event.terminate Child.geometry,
        Event.terminate Child.trefftz], TailOutcome.interrupted)
  | Except.ok geometryRet =>
    match env.trefftzPollAfter with
    | none =>
      match env.trefftzWait with
      | Except.error _ =>
          ([Event.waitOn Child.geometry, Event.waitOn Child.trefftz,
            Event.terminate Child.trefftz], TailOutcome.interrupted)
      | Except.ok trefftzRet =>
          ([Event.waitOn Child.geometry, Event.waitOn Child.trefftz],
            finalizeChecks (some geometryRet) (some trefftzRet))
    | some trefftzRet =>
        ([Event.waitOn Child.geometry],
          finalizeChecks (some geometryRet) (some trefftzRet))

/-- Composition of the settle check and the wait phase (lines 353-420):
a settle-phase crash raises before any wait is entered. -/
def runSettleAndWait (geometryPoll trefftzPoll : Option Int) (env : WaitEnv) :
    List Event × TailOutcome :=
  match settlePhase geometryPoll trefftzPoll with
  | Except.error f => ([], TailOutcome.failed f)
  | Except.ok _ => waitPhase env

/-- The failure value names an instance that really exited with that
non-zero code. -/
def identifiesExitFailure (f : RunFailure) (g t : Option Int) : Prop :=
  ∃ code : Int, code ≠ 0 ∧
    ((f = RunFailure.geometryExitNonzero code ∧ g = some code) ∨
     (f = RunFailure.trefftzExitNonzero code ∧ t = some code))

/-- C1: the final checks yield exit code 0 iff each child's observed exit code
is `0` or `None`; otherwise the outcome is a failure identifying a child that
exited with its non-zero code, and the process exit code is 1. -/
theorem c1_exit_code_aggregation (g t : Option Int) :
    (tailExitCode (finalizeChecks g t) = some 0 ↔
      ((g = some 0 ∨ g = none) ∧ (t = some 0 ∨ t = none))) ∧
    (∀ f : RunFailure, finalizeChecks g t = TailOutcome.failed f →
      tailExitCode (finalizeChecks g t) = some 1 ∧ identifiesExitFailure f g t) ∧
    (finalizeChecks g t = TailOutcome.ok ∨
      ∃ f : RunFailure, finalizeChecks g t = TailOutcome.failed f) := by
  have hcases : finalizeChecks g t = TailOutcome.ok ∨
      ∃ f : RunFailure, finalizeChecks g t = TailOutcome.failed f := by
    rcases g with _ | gc <;> rcases t with _ | tc <;>
      simp only [finalizeChecks, trefftzFinalCheck] <;>
      first
      | (split_ifs <;> simp)
      | simp
  have htc : ∀ tRet : Option Int,
      (tailExitCode (trefftzFinalCheck tRet) = some 0 ↔
        (tRet = some 0 ∨ tRet = none)) ∧
      (∀ f, trefftzFinalCheck tRet = TailOutcome.failed f →
        tailExitCode (trefftzFinalCheck tRet) = some 1 ∧
          ∃ code : Int, code ≠ 0 ∧ f = RunFailure.trefftzExitNonzero code ∧
            tRet = some code) := by
    intro tRet
    rcases tRet with _ | tc
    · refine ⟨by simp [trefftzFinalCheck, tailExitCode], ?_⟩
      intro f hf
      simp [trefftzFinalCheck] at hf
    · by_cases h1 : tc = 0
      · subst h1
        refine ⟨by simp [trefftzFinalCheck, tailExitCode], ?_⟩
        intro f hf
        simp [trefftzFinalCheck] at hf
      · refine ⟨by simp [trefftzFinalCheck, h1, tailExitCode], ?_⟩
        intro f hf
        simp only [trefftzFinalCheck, h1, if_false, if_neg h1] at hf
        injection hf with hf2
        subst hf2
        exact ⟨by simp [trefftzFinalCheck, h1, tailExitCode], tc, h1, rfl, rfl⟩
  rcases g with _ | gc
  · refine ⟨by simpa [finalizeChecks] using (htc t).1, ?_, hcases⟩
    intro f hf
    simp only [finalizeChecks] at hf
    obtain ⟨h1, code, hc0, hfe, hte⟩ := (htc t).2 f hf
    exact ⟨by simpa [finalizeChecks] using h1, code, hc0, Or.inr ⟨hfe, hte⟩⟩
  · by_cases hg : gc = 0
    · subst hg
      refine ⟨by simpa [finalizeChecks] using (htc t).1, ?_, hcases⟩
      intro f hf
      simp only [finalizeChecks, if_pos rfl] at hf
      obtain ⟨h1, code, hc0, hfe, hte⟩ := (htc t).2 f hf
      exact ⟨by simpa [finalizeChecks] using h1, code, hc0, Or.inr ⟨hfe, hte⟩⟩
    · refine ⟨by simp [finalizeChecks, hg, tailExitCode], ?_, hcases⟩
      intro f hf
      simp only [finalizeChecks, hg, if_neg hg] at hf
      injection hf with hf2
      subst hf2
      exact ⟨by simp [finalizeChecks, hg, tailExitCode], gc, hg, Or.inl ⟨rfl, rfl⟩⟩

/-- C1 witness: with geometry exiting 0 and Trefftz exiting 2, the run fails
with exit code 1 and the failure names the Trefftz instance with code 2. -/
theorem c1_exit_code_aggregation_witness :
    tailExitCode (finalizeChecks (some 0) (some 2)) = some 1 ∧
      identifiesExitFailure (RunFailure.trefftzExitNonzero 2) (some 0) (some 2) :=
  (c1_exit_code_aggregation (some 0) (some 2)).2.1 (RunFailure.trefftzExitNonzero 2) rfl

/-- The final exit-code checks never produce an interrupt outcome. -/
theorem finalizeChecks_ne_interrupted (g t : Option Int) :
    finalizeChecks g t ≠ TailOutcome.interrupted := by
  rcases g with _ | gc <;> rcases t with _ | tc <;>
    simp only [finalizeChecks, trefftzFinalCheck] <;>
    first
    | (split_ifs <;> simp)
    | simp

/-- C2 counterexample: a `KeyboardInterrupt` delivered while blocked in the
second wait (on the Trefftz child, after the geometry child already exited
with code 0) re-raises after a termination call against the Trefftz child
only: no termination call is issued against the geometry child, refuting the
claim that every blocked wait terminates both children on interrupt. -/
theorem c2_interrupt_counterexample :
    (waitPhase ⟨Except.ok 0, none, Except.error ()⟩).2 = TailOutcome.interrupted ∧
      Event.terminate Child.trefftz ∈
        (waitPhase ⟨Except.ok 0, none, Except.error ()⟩).1 ∧
      Event.terminate Child.geometry ∉
        (waitPhase ⟨Except.ok 0, none, Except.error ()⟩).1 := by
  decide

/-- C2 amended: whenever a `KeyboardInterrupt` delivered during a blocked wait
propagates, a termination call against the Trefftz child has been issued
first; an interrupt during the first wait (on the geometry child) issues
termination calls against both children before re-raising.  Only the
still-running Trefftz child is terminated when the interrupt arrives during
the second wait, the geometry child having already exited. -/
theorem c2_interrupt_terminations (env : WaitEnv) :
    ((waitPhase env).2 = TailOutcome.interrupted →
      Event.terminate Child.trefftz ∈ (waitPhase env).1) ∧
    (env.geometryWait = Except.error () →
      Event.terminate Child.geometry ∈ (waitPhase env).1 ∧
        Event.terminate Child.trefftz ∈ (waitPhase env).1 ∧
        (waitPhase env).2 = TailOutcome.interrupted) := by
  obtain ⟨gw, tp, tw⟩ := env
  rcases gw with u | gret
  · simp [waitPhase]
  · rcases tp with _ | tret
    · rcases tw with u | tret2
      · simp [waitPhase]
      · simp [waitPhase, finalizeChecks_ne_interrupted]
    · simp [waitPhase, finalizeChecks_ne_interrupted]

/-- C2 witness: an interrupt during the first (geometry) wait issues
termination calls against both children and re-raises. -/
theorem c2_interrupt_terminations_witness :
    Event.terminate Child.geometry ∈
        (waitPhase ⟨Except.error (), none, Except.ok 0⟩).1 ∧
      Event.terminate Child.trefftz ∈
        (waitPhase ⟨Except.error (), none, Except.ok 0⟩).1 ∧
      (waitPhase ⟨Except.error (), none, Except.ok 0⟩).2 = TailOutcome.interrupted :=
  (c2_interrupt_terminations ⟨Except.error (), none, Except.ok 0⟩).2 rfl

/-- C8: when the geometry launch succeeds and the Trefftz launch fails, the
launch phase issues a termination call against the already-launched geometry
child and reports the failure; the Trefftz child is never launched, so no
partially-launched child is left running. -/
theorem c8_second_launch_failure_cleanup :
    launchPhase true false =
      ([Event.launch Child.geometry, Event.terminate Child.geometry],
        Except.error RunFailure.trefftzLaunchFailed) ∧
      Event.terminate Child.geometry ∈ (launchPhase true false).1 ∧
      Event.launch Child.trefftz ∉ (launchPhase true false).1 :=
  ⟨rfl, by decide, by decide⟩

/-- C9: if the settle-phase poll reports that a child has already exited
(with any code, zero included), the run fails at once with an error naming
that instance and its exit code, and no wait on the other child is entered
(the event trace is empty). -/
theorem c9_settle_check (geometryPoll trefftzPoll : Option Int) (env : WaitEnv) :
    (∀ code : Int, geometryPoll = some code →
      runSettleAndWait geometryPoll trefftzPoll env =
        ([], TailOutcome.failed (RunFailure.geometryCrashed code))) ∧
    (∀ code : Int, geometryPoll = none → trefftzPoll = some code →
      runSettleAndWait geometryPoll trefftzPoll env =
        ([], TailOutcome.failed (RunFailure.trefftzCrashed code))) ∧
    (geometryPoll = none → trefftzPoll = none →
      runSettleAndWait geometryPoll trefftzPoll env = waitPhase env) := by
  refine ⟨?_, ?_, ?_⟩
  · intro code hc
    subst hc
    simp [runSettleAndWait, settlePhase]
  · intro code hg hc
    subst hg; subst hc
    simp [runSettleAndWait, settlePhase]
  · intro hg hc
    subst hg; subst hc
    simp [runSettleAndWait, settlePhase]

/-- C9 witness: a geometry child that has already exited with code 0 at the
settle check makes the run fail immediately, with an empty event trace. -/
theorem c9_settle_check_witness :
    runSettleAndWait (some 0) none ⟨Except.ok 0, none, Except.ok 0⟩ =
      ([], TailOutcome.failed (RunFailure.geometryCrashed 0)) :=
  (c9_settle_check (some 0) none ⟨Except.ok 0, none, Except.ok 0⟩).1 0 rfl

/-! ### Orchestrator attribute surface (`avl_viewer_commands.py`,
`AVLViewerOrchestrator`, lines 27-59)

The dataclass declares exactly the fields below and no `__getattr__`, so
reading any other attribute raises `AttributeError`. -/

/-- The declared dataclass fields of `AVLViewerOrchestrator`, in order:
seven constructor fields plus four defaulted internal-state fields. -/
def orchestratorFieldNames : List String :=
  ["le_csv", "te_csv", "avl_geometry", "output_dir", "alpha", "mach",
   "avl_executable", "geometry_file", "run_file", "command_script",
   "command_input"]

/-- The methods and properties defined on `AVLViewerOrchestrator`. -/
def orchestratorMethodNames : List String :=
  ["prepare", "working_directory", "build_avl_launch_command",
   "_ensure_geometry_file", "_generate_geometry_from_points",
   "_generate_run_file", "_generate_command_script",
   "_detect_avl_executable"]

/-- Attribute lookup on an `AVLViewerOrchestrator` instance succeeds exactly
for declared fields and methods; anything else raises `AttributeError`. -/
def orchestratorHasAttr (name : String) : Bool :=
  orchestratorFieldNames.contains name || orchestratorMethodNames.contains name

/-- Environment for `main` after a successful `prepare()`: launch results,
settle-phase polls and wait-phase outcomes for both children. -/
structure PostPrepareEnv where
  geometryLaunchOk : Bool
  trefftzLaunchOk : Bool
  geometryPollSettle : Option Int
  trefftzPollSettle : Option Int
  wait : WaitEnv

/-- Embeds `main` from line 239 (the launch-command step) to the end, for runs
whose `prepare()` succeeded.  Line 239 reads
`orchestrator.geometry_command_script`; a missing attribute raises
`AttributeError`, absorbed by the broad handler, making `main` return `1`.
The later reads of `geometry_command_input` and `trefftz_command_input`
(lines 282, 290) sit inside `try/except` blocks that only log, so they cannot
alter control flow; the reads of `stability_file` and `neutral_point_summary`
(lines 376-377) are unguarded and are checked before the wait phase. -/
def mainPostPrepare (env : PostPrepareEnv) : List Event × Option Int :=
  if !(orchestratorHasAttr "build_avl_launch_command" &&
        orchestratorHasAttr "geometry_command_script") then
    ([], some 1)
  else
    match launchPhase env.geometryLaunchOk env.trefftzLaunchOk with
    | (evs, Except.error _) => (evs, some 1)
    | (evs, Except.ok _) =>
      match settlePhase env.geometryPollSettle env.trefftzPollSettle with
      | Except.error _ => (evs, some 1)
      | Except.ok _ =>
        if !(orchestratorHasAttr "stability_file" &&
              orchestratorHasAttr "neutral_point_summary") then
          (evs, some 1)
        else
          let step := waitPhase env.wait
          (evs ++ step.1, tailExitCode step.2)

/-- C3: the orchestrator declares `command_script` but none of the five attributes
`main` reads after `prepare()`, so for every environment the post-prepare part
of `main` performs no process launch and returns exit code 1 — it can never
return 0. -/
theorem c3_missing_attribute_always_fails :
    orchestratorHasAttr "command_script" = true ∧
      orchestratorHasAttr "command_input" = true ∧
      orchestratorHasAttr "geometry_command_script" = false ∧
      orchestratorHasAttr "geometry_command_input" = false ∧
      orchestratorHasAttr "trefftz_command_input" = false ∧
      orchestratorHasAttr "stability_file" = false ∧
      orchestratorHasAttr "neutral_point_summary" = false ∧
      (∀ env : PostPrepareEnv, mainPostPrepare env = ([], some 1)) := by
  refine ⟨by decide, by decide, by decide, by decide, by decide, by decide,
    by decide, ?_⟩
  intro env
  rfl

/-- C3 witness: even with both launches able to succeed, both children
staying alive and a clean double exit available, the post-prepare part of
`main` launches nothing and returns 1. -/
theorem c3_missing_attribute_always_fails_witness :
    mainPostPrepare ⟨true, true, none, none, ⟨Except.ok 0, none, Except.ok 0⟩⟩ =
      ([], some 1) :=
  c3_missing_attribute_always_fails.2.2.2.2.2.2.2
    ⟨true, true, none, none, ⟨Except.ok 0, none, Except.ok 0⟩⟩

/-! ### Watcher start-up (`avl_window_control.py`, `manage_windows_async`,
lines 50-91) -/

/-- Arguments to `manage_windows_async`: the host-platform flag
(`sys.platform.startswith("win")`) and the three optional process ids. -/
structure MWArgs where
  isWindowsPlatform : Bool
  geometry_pid : Option Nat
  trefftz_pid : Option Nat
  pid : Option Nat

/-- Embeds `manage_windows_async`.  The first component records whether a
watcher thread was started; the second is the function's return value.  The
Python function is annotated `-> None`: both early `return` statements return
`None`, and after `watcher.start()` the body falls off the end, which also
returns `None` — the started watcher is never returned. -/
def manage_windows_async (a : MWArgs) : Bool × Option Nat :=
  if !a.isWindowsPlatform then
    (false, none)
  else
    let geometryPid : Option Nat :=
      match a.pid with
      | some p =>
        match a.geometry_pid, a.trefftz_pid with
        | none, none => some p
        | _, _ => a.geometry_pid
      | none => a.geometry_pid
    match geometryPid, a.trefftz_pid with
    | none, none => (false, none)
    | _, _ => (true, none)

/-- Embeds the supervisor's grace-period wait guard (`avl_viewer.py`
lines 303-317): the bounded wait on the watcher runs only when the value
returned by `manage_windows_async` is not `None`. -/
def supervisorWaitsForWatcher (watcher : Option Nat) : Bool :=
  watcher.isSome

/-- C10: `manage_windows_async` returns `None` for every argument
combination, so the supervisor's guarded grace-period wait on the returned
handle never executes. -/
theorem c10_watcher_never_returned (a : MWArgs) :
    (manage_windows_async a).2 = none ∧
      supervisorWaitsForWatcher (manage_windows_async a).2 = false := by
  obtain ⟨w, g, t, p⟩ := a
  rcases w with _ | _
  · exact ⟨rfl, rfl⟩
  · rcases p with _ | pv <;> rcases g with _ | gv <;> rcases t with _ | tv <;>
      simp [manage_windows_async, supervisorWaitsForWatcher]

/-- C10 witness: on the Windows platform with both process ids supplied, the
started watcher is still not returned and the grace wait is skipped. -/
theorem c10_watcher_never_returned_witness :
    (manage_windows_async ⟨true, some 11, some 22, none⟩).2 = none ∧
      supervisorWaitsForWatcher
        (manage_windows_async ⟨true, some 11, some 22, none⟩).2 = false :=
  c10_watcher_never_returned ⟨true, some 11, some 22, none⟩

/-! ### Window placement watcher (`avl_window_control.py`,
`_WindowWatcher.run`, lines 112-181, and `_move_window`, lines 249-265)

Each poll tick enumerates handles for a process; a handle is paired with the
Boolean the platform's `MoveWindow` reports for it. -/

/-- First handle in enumeration order whose move succeeds: the inner loop of
lines 133-142 tries `_move_window` on each handle and `break`s on the first
success, recording that handle. -/
def firstSuccessfulMove : List (Nat × Bool) → Option Nat
  | [] => none
  | (h, ok) :: rest => if ok then some h else firstSuccessfulMove rest

/-- The handles on which a move is attempted during one tick: every handle up
to and including the first successful one. -/
def attemptedMoves : List (Nat × Bool) → List Nat
  | [] => []
  | (h, ok) :: rest => if ok then [h] else h :: attemptedMoves rest

/-- Per-process body of the watcher loop (lines 129-142): a process with no
pid, or whose window is already recorded, is skipped; otherwise the
enumerated handles are tried in order and the first successful move is
recorded.  Returns the new recorded window and the handles attempted. -/
def stepProcess (recorded : Option Nat) (pid : Option Nat)
    (handles : List (Nat × Bool)) : Option Nat × List Nat :=
  match recorded, pid with
  | some w, _ => (some w, [])
  | none, none => (none, [])
  | none, some _ => (firstSuccessfulMove handles, attemptedMoves handles)

/-- The two tracked pids of a watcher. -/
structure WatcherConfig where
  geometryPid : Option Nat
  trefftzPid : Option Nat

/-- The watcher's recorded windows (`_geometry_window`, `_trefftz_window`). -/
structure WatcherState where
  geometryWindow : Option Nat
  trefftzWindow : Option Nat
  deriving DecidableEq, Repr

/-- One tick's enumeration-plus-move observations for both processes. -/
structure TickObs where
  geometryHandles : List (Nat × Bool)
  trefftzHandles : List (Nat × Bool)

/-- One iteration of the `while` loop body (lines 128-158): process the
geometry handles, then the Trefftz handles; collect this tick's attempts. -/
def watcherTick (cfg : WatcherConfig) (s : WatcherState) (t : TickObs) :
    WatcherState × List (Child × Nat) :=
  let g := stepProcess s.geometryWindow cfg.geometryPid t.geometryHandles
  let tr := stepProcess s.trefftzWindow cfg.trefftzPid t.trefftzHandles
  (⟨g.1, tr.1⟩,
    g.2.map (fun h => (Child.geometry, h)) ++
      tr.2.map (fun h => (Child.trefftz, h)))

/-- Lines 161-166: a process is done when it has no pid or a recorded
window; the loop returns once both are done. -/
def watcherDone (cfg : WatcherConfig) (s : WatcherState) : Bool :=
  (cfg.geometryPid.isNone || s.geometryWindow.isSome) &&
    (cfg.trefftzPid.isNone || s.trefftzWindow.isSome)

/-- The watcher loop over a finite sequence of poll ticks (the wall-clock
deadline bounds the tick count); it exits early when both processes are done.
Returns the final state and the chronological list of move attempts. -/
def watcherRun (cfg : WatcherConfig) (s : WatcherState) :
    List TickObs → WatcherState × List (Child × Nat)
  | [] => (s, [])
  | t :: rest =>
    let step := watcherTick cfg s t
    if watcherDone cfg step.1 then (step.1, step.2)
    else
      let cont := watcherRun cfg step.1 rest
      (cont.1, step.2 ++ cont.2)

/-- C5 counterexample: tracking one process whose single discovered handle 7
refuses to move, the watcher attempts handle 7 on the first tick, yet after
that tick the process has not transitioned to a positioned state (its
recorded window is still `none`) and the same handle is attempted again on
the second tick — refuting both halves of the claim. -/
theorem c5_failed_move_counterexample :
    (watcherRun ⟨some 1, none⟩ ⟨none, none⟩
        [⟨[(7, false)], []⟩, ⟨[(7, false)], []⟩]).2 =
      [(Child.geometry, 7), (Child.geometry, 7)] ∧
      (watcherRun ⟨some 1, none⟩ ⟨none, none⟩
          [⟨[(7, false)], []⟩, ⟨[(7, false)], []⟩]).1.geometryWindow = none := by
  decide

/-- C5 amended: a tracked process transitions to the positioned state exactly
when the platform reports a successful move on some enumerated handle; the
positioned state is terminal (no further attempts); and when every move of a
tick fails the process stays unpositioned, with every enumerated handle
having been attempted (and hence eligible for retry on later ticks, as the
counterexample run exhibits). -/
theorem c5_positioned_only_on_successful_move (pid : Option Nat)
    (handles : List (Nat × Bool)) :
    (∀ w : Nat, stepProcess (some w) pid handles = (some w, [])) ∧
    ((stepProcess none pid handles).1.isSome = true ↔
      (pid.isSome = true ∧ ∃ h : Nat, (h, true) ∈ handles)) ∧
    ((stepProcess none pid handles).1 = none → pid.isSome = true →
      (stepProcess none pid handles).2 = handles.map Prod.fst) := by
  have key : ∀ l : List (Nat × Bool),
      ((firstSuccessfulMove l).isSome = true ↔ ∃ h : Nat, (h, true) ∈ l) ∧
      (firstSuccessfulMove l = none → attemptedMoves l = l.map Prod.fst) := by
    intro l
    induction l with
    | nil => simp [firstSuccessfulMove, attemptedMoves]
    | cons hd tl ih =>
      obtain ⟨hh, hb⟩ := hd
      rcases hb with _ | _
      · constructor
        · simpa [firstSuccessfulMove] using ih.1
        · intro hnone
          simp only [firstSuccessfulMove, if_neg Bool.false_ne_true] at hnone
          simp [attemptedMoves, ih.2 hnone]
      · constructor
        · simp [firstSuccessfulMove]
        · intro hnone
          simp [firstSuccessfulMove] at hnone
  rcases pid with _ | p
  · refine ⟨fun w => rfl, by simp [stepProcess], ?_⟩
    intro _ hp
    simp at hp
  · refine ⟨fun w => rfl, ?_, ?_⟩
    · simpa [stepProcess] using (key handles).1
    · intro hres _
      simp only [stepProcess] at hres ⊢
      exact (key handles).2 hres

/-- C5 amended witness: with a tracked pid, a tick whose first handle fails
and second succeeds positions the process on the second handle; a positioned
process is skipped afterwards. -/
theorem c5_positioned_only_on_successful_move_witness :
    stepProcess (some 9) (some 1) [(7, false)] = (some 9, []) ∧
      (stepProcess none (some 1) [(7, false), (8, true)]).1.isSome = true ∧
      (stepProcess none (some 1) [(7, false)]).2 = [7] :=
  ⟨(c5_positioned_only_on_successful_move (some 1) [(7, false)]).1 9,
   ((c5_positioned_only_on_successful_move (some 1) [(7, false), (8, true)]).2.1).2
     ⟨rfl, 8, by decide⟩,
   (c5_positioned_only_on_successful_move (some 1) [(7, false)]).2.2 rfl rfl⟩

/-! ### Result capture (`avl_viewer.py`, `capture_and_save_neutral_point`,
lines 62-126)

`NEUTRAL_POINT_PATTERN` is
`Neutral point\s*(?::\s*)?(?:Xnp|x/c)\s*=\s*([-+0-9.eE]+)`; the matcher below
implements it directly over character lists.  The whitespace runs, the
optional colon and the keyword alternatives begin with pairwise disjoint
character sets, so the regex engine's backtracking is deterministic here and
the greedy scan below is exact; `re.search` takes the leftmost matching
position. -/

/-- ASCII whitespace matched by `\s` (report texts involved are ASCII). -/
def isSpaceChar (c : Char) : Bool :=
  c = ' ' || c = '\t' || c = '\n' || c = '\r' || c = '\x0b' || c = '\x0c'

/-- The capture-group character class `[-+0-9.eE]`. -/
def isNumGroupChar (c : Char) : Bool :=
  c = '-' || c = '+' || c = '.' || c = 'e' || c = 'E' || c.isDigit

/-- Match a literal character sequence, returning the remainder. -/
def matchLit : List Char → List Char → Option (List Char)
  | [], rest => some rest
  | _ :: _, [] => none
  | c :: cs, d :: ds => if c = d then matchLit cs ds else none

/-- Match the keyword alternatives `Xnp` or `x/c` (tried in that order). -/
def matchKeyword (l : List Char) : Option (List Char) :=
  match matchLit "Xnp".toList l with
  | some r => some r
  | none => matchLit "x/c".toList l

/-- Match `(?::\s*)?(?:Xnp|x/c)`: the optional-colon branch is taken exactly
when a colon is present, since the keyword cannot itself start with `:`. -/
def matchColonKeyword (l : List Char) : Option (List Char) :=
  match l with
  | ':' :: rest => matchKeyword (rest.dropWhile isSpaceChar)
  | _ => matchKeyword l

/-- Match the whole pattern at the current position, returning the captured
group (the maximal non-empty run of `[-+0-9.eE]` after the `=`). -/
def matchNeutralAt (l : List Char) : Option (List Char) :=
  match matchLit "Neutral point".toList l with
  | none => none
  | some r1 =>
    match matchColonKeyword (r1.dropWhile isSpaceChar) with
    | none => none
    | some r2 =>
      match r2.dropWhile isSpaceChar with
      | '=' :: r3 =>
        let grp := (r3.dropWhile isSpaceChar).takeWhile isNumGroupChar
        if grp.isEmpty then none else some grp
      | _ => none

/-- `re.search`: the captured group at the leftmost position where the whole
pattern matches. -/
def searchNeutral : List Char → Option (List Char)
  | [] => matchNeutralAt []
  | c :: rest =>
    match matchNeutralAt (c :: rest) with
    | some grp => some grp
    | none => searchNeutral rest

/-- Numeric value of a digit run. -/
def digitsToNat (l : List Char) : Nat :=
  l.foldl (fun acc c => acc * 10 + (c.toNat - '0'.toNat)) 0

/-- Exponent tail of a float literal: optional sign, then at least one digit
and nothing else. -/
def parseExpQ (mant : ℚ) (r : List Char) : Option ℚ :=
  let se : Int × List Char :=
    match r with
    | '+' :: rr => (1, rr)
    | '-' :: rr => (-1, rr)
    | _ => (1, r)
  let ed := se.2.takeWhile Char.isDigit
  let rst := se.2.dropWhile Char.isDigit
  if ed.isEmpty || !rst.isEmpty then none
  else some (mant * (10 : ℚ) ^ (se.1 * (digitsToNat ed : Int)))

/-- Embeds Python `float(s)` for strings over the group class: optional sign,
a mantissa with at least one digit (integer part, fractional part or both),
then an optional exponent.  Any other shape raises `ValueError` (`none`
here).  The value is modelled exactly, in `ℚ`. -/
def parseFloatQ (l : List Char) : Option ℚ :=
  let signAndRest : ℚ × List Char :=
    match l with
    | '+' :: r => (1, r)
    | '-' :: r => (-1, r)
    | _ => (1, l)
  let sgn := signAndRest.1
  let l1 := signAndRest.2
  let ip := l1.takeWhile Char.isDigit
  let l2 := l1.dropWhile Char.isDigit
  let fracAndRest : List Char × List Char :=
    match l2 with
    | '.' :: r => (r.takeWhile Char.isDigit, r.dropWhile Char.isDigit)
    | _ => ([], l2)
  let fp := fracAndRest.1
  let l3 := fracAndRest.2
  if ip.isEmpty && fp.isEmpty then none
  else
    let mant : ℚ :=
      sgn * ((digitsToNat ip : ℚ) + (digitsToNat fp : ℚ) / (10 : ℚ) ^ fp.length)
    match l3 with
    | [] => some mant
    | 'e' :: r => parseExpQ mant r
    | 'E' :: r => parseExpQ mant r
    | _ => none

/-- Left-pad a digit string with zeros to width 6. -/
def padZeros6 (s : String) : String :=
  String.mk (List.replicate (6 - s.length) '0') ++ s

/-- Render a count of millionths as a fixed-point decimal with six digits
after the point. -/
def formatMillionths (n : Int) : String :=
  let s := if n < 0 then "-" else ""
  let m := n.natAbs
  s ++ toString (m / 1000000) ++ "." ++ padZeros6 (toString (m % 1000000))

/-- Embeds the Python formatting `f"{v:.6f}"` on the exact rational model:
round to the nearest millionth (the values the code meets are not ties) and
print with exactly six decimals. -/
def formatFixed6 (q : ℚ) : String :=
  formatMillionths ⌊q * 1000000 + 1 / 2⌋

/-- One poll-tick observation of the stability file: absent, a read that
raises `OSError`, or a successful read yielding the file's text (paired with
whether a summary write at that moment would succeed). -/
inductive PollObs where
  | absent
  | readError
  | content (text : String) (writeOk : Bool)

/-- Result of the capture routine: the summary text written, if any, and the
value the Python function returns (`none` = it returned `None`). -/
structure CaptureOutcome where
  written : Option String
  result : Option ℚ
  deriving DecidableEq, Repr

/-- Embeds the polling loop of `capture_and_save_neutral_point` over the
finite sequence of poll ticks that fit before the deadline.  Faithful to the
source's handlers: a missing file or an `OSError` during the read is
swallowed and the next tick proceeds; a matched group rejected by `float()`
is likewise swallowed; on a parsed match the two-line summary
`f"Xnp\n{value:.6f}\n"` is written (an `OSError` there is only logged — the
value is returned regardless); deadline exhaustion logs a warning and
returns `None` with nothing written. -/
def captureLoop : List PollObs → CaptureOutcome
  | [] => ⟨none, none⟩
  | PollObs.absent :: rest => captureLoop rest
  | PollObs.readError :: rest => captureLoop rest
  | PollObs.content text writeOk :: rest =>
    match searchNeutral text.toList with
    | none => captureLoop rest
    | some grp =>
      match parseFloatQ grp with
      | none => captureLoop rest
      | some v =>
        ⟨if writeOk then some ("Xnp\n" ++ formatFixed6 v ++ "\n") else none,
          some v⟩

/-- C6: whenever the report text's leftmost pattern match yields a group that
parses as a float `v`, the capture routine writes exactly the two-line
record `"Xnp\n" ++ v formatted to six decimals ++ "\n"` and returns `v`. -/
theorem c6_neutral_point_record (text : String) (rest : List PollObs)
    (grp : List Char) (v : ℚ)
    (hsearch : searchNeutral text.toList = some grp)
    (hparse : parseFloatQ grp = some v) :
    captureLoop (PollObs.content text true :: rest) =
      ⟨some ("Xnp\n" ++ formatFixed6 v ++ "\n"), some v⟩ := by
  have hs2 : searchNeutral text.data = some grp := hsearch
  simp [captureLoop, hs2, hparse]

/-- C6 witness: a report whose text is `Neutral point Xnp = 0.2345` produces
the summary `Xnp` newline `0.234500` newline and the return value
`0.2345`. -/
theorem c6_neutral_point_record_witness :
    captureLoop [PollObs.content "Neutral point Xnp = 0.2345" true] =
      ⟨some "Xnp\n0.234500\n", some (2345 / 10000 : ℚ)⟩ := by
  have hd1 : digitsToNat ['0'] = 0 := rfl
  have hd2 : digitsToNat ['2', '3', '4', '5'] = 2345 := rfl
  have hpv : parseFloatQ "0.2345".toList =
      some (1 * ((digitsToNat ['0'] : ℚ) +
        (digitsToNat ['2', '3', '4', '5'] : ℚ) / (10 : ℚ) ^ 4)) := rfl
  have hpq : parseFloatQ "0.2345".toList = some (2345 / 10000 : ℚ) := by
    rw [hpv, hd1, hd2]
    norm_num
  have h := c6_neutral_point_record "Neutral point Xnp = 0.2345" []
      "0.2345".toList (2345 / 10000 : ℚ) rfl hpq
  rw [h]
  have hfloor : (⌊(2345 / 10000 : ℚ) * 1000000 + 1 / 2⌋ : ℤ) = 234500 := by
    norm_num
  have hfmt : formatFixed6 (2345 / 10000 : ℚ) = "0.234500" := by
    rw [formatFixed6, hfloor]
    rfl
  rw [hfmt]
  rfl

/-- A poll tick on which the loop returns: the file was read and its text has
a pattern match whose group `float()` accepts. -/
def successfulTick : PollObs → Bool
  | PollObs.content text _ =>
    (match searchNeutral text.toList with
     | some grp => (parseFloatQ grp).isSome
     | none => false)
  | _ => false

/-- C7: ticks on which the file is absent, the read raises, nothing matches
or the match does not parse are all swallowed — the loop behaves on the
remaining ticks exactly as if they had not happened; in particular a full
trace without a successful tick reaches the timeout and returns `None` with
no summary written (the routine's only report of this is its logging). -/
theorem c7_capture_transient_and_timeout (pre trace : List PollObs) :
    ((∀ o ∈ pre, successfulTick o = false) →
      captureLoop (pre ++ trace) = captureLoop trace) ∧
    ((∀ o ∈ trace, successfulTick o = false) →
      captureLoop trace = ⟨none, none⟩) := by
  have key : ∀ l rest : List PollObs, (∀ o ∈ l, successfulTick o = false) →
      captureLoop (l ++ rest) = captureLoop rest := by
    intro l
    induction l with
    | nil => intro rest _; rfl
    | cons hd tl ih =>
      intro rest hall
      have hhd := hall hd (List.mem_cons_self hd tl)
      have htl : ∀ o ∈ tl, successfulTick o = false :=
        fun o ho => hall o (List.mem_cons_of_mem hd ho)
      cases hd with
      | absent => simpa [captureLoop] using ih rest htl
      | readError => simpa [captureLoop] using ih rest htl
      | content text writeOk =>
        simp only [successfulTick] at hhd
        cases hs : searchNeutral text.toList with
        | none =>
          rw [List.cons_append]
          simp only [captureLoop, hs]
          exact ih rest htl
        | some grp =>
          cases hp : parseFloatQ grp with
          | none =>
            rw [List.cons_append]
            simp only [captureLoop, hs, hp]
            exact ih rest htl
          | some v =>
            rw [hs] at hhd
            simp [hp] at hhd
  refine ⟨key pre trace, ?_⟩
  intro h
  have h2 := key trace [] h
  simpa using h2

/-- C7 witness: a locked-file read error and an absent-file tick are retried
through, and a trace that never matches returns `None` with no summary. -/
theorem c7_capture_transient_and_timeout_witness :
    captureLoop ([PollObs.readError, PollObs.absent] ++
        [PollObs.content "no result yet" true]) =
      captureLoop [PollObs.content "no result yet" true] ∧
      captureLoop [PollObs.readError, PollObs.absent,
        PollObs.content "no result yet" true] = ⟨none, none⟩ :=
  ⟨(c7_capture_transient_and_timeout [PollObs.readError, PollObs.absent]
      [PollObs.content "no result yet" true]).1 (by decide),
   (c7_capture_transient_and_timeout []
      [PollObs.readError, PollObs.absent,
        PollObs.content "no result yet" true]).2 (by decide)⟩

end AVLConnector
